import Mathlib

/-!
Verification development for a Flask HTTP gateway (`app.py`) that forwards
questions to a remote Gradio inference backend. The embedding below models:

* the backend session manager `GradioAPIClient` (connect / ensure-connection /
  generate with one reconnect-and-retry), with the outcomes of successive
  `Client(...)` constructions and `client.predict(...)` calls supplied by
  oracles (`connectOk n` is the outcome of the n-th connect attempt,
  `predict n` the outcome of the n-th remote predict call);
* the route handlers `/generate`, `/ask`, `/compare`, `/batch`, `/health`,
  the `require_api_key` auth decorator and the `handle_errors` wrapper;
* JSON response bodies as association lists of field name / value pairs.

Numeric generation parameters (`max_length`, `temperature`, `top_p`, `delay`)
are Python floats used only for order comparisons and pass-through; they are
modelled as rationals. Python string truthiness (`x or y`, `if not x`) is
modelled explicitly by `pyOrStr` / emptiness checks.
-/

namespace GradioApp

/-- A JSON value as far as the gateway's responses need: a string or `null`.
(Other payload values — numbers, nested objects — are rendered as strings;
the claims below only inspect field presence and string/null contents.) -/
inductive JVal where
  | str (s : String)
  | null
deriving DecidableEq

/-- A JSON object: ordered field list. -/
abbrev JsonObj := List (String × JVal)

/-- Whether a JSON object contains a field with the given name. -/
def hasField (o : JsonObj) (k : String) : Bool :=
  o.any (fun p => p.1 == k)

/-- Python `a or b` on optional strings: an absent or empty string is falsy
and falls through to the second operand (e.g.
`data.get('user_input') or data.get('question')`, line 237 of `app.py`). -/
def pyOrStr (a b : Option String) : Option String :=
  match a with
  | some s => if s = "" then b else some s
  | none => b

/-! ## Backend session manager (`GradioAPIClient`, app.py lines 41-126) -/

/-- Outcome of one `client.predict(...)` call: a returned string or a raised
exception carrying its message. -/
inductive POut where
  | ok (s : String)
  | exn (e : String)
deriving DecidableEq

/-- How `generate_response` can fail: `ConnectionError("Unable to connect to
Gradio API")` raised by `_ensure_connection`, or a remote-call exception. -/
inductive GenErr where
  | connectionUnavailable
  | exn (e : String)
deriving DecidableEq

/-- The body of `GradioAPIClient.generate_response` after `_ensure_connection`
succeeded (app.py lines 83-113). `c` is the number of `_connect` calls made so
far (used to index `connectOk`). Returns the outcome together with the total
number of `_connect` calls and of `client.predict` calls made. -/
def GradioAPIClient.gen_after_ensure (connectOk : Nat → Bool) (predict : Nat → POut)
    (c : Nat) : Except GenErr String × Nat × Nat :=
  match predict 0 with
  | .ok s => (.ok s, c, 1)
  | .exn e =>
    -- `except Exception as e:` — try to reconnect once (lines 97-113)
    if connectOk c then
      match predict 1 with
      | .ok s => (.ok s, c + 1, 2)
      | .exn e2 => (.error (.exn e2), c + 1, 2)
    else
      (.error (.exn e), c + 1, 1)

/-- `GradioAPIClient.generate_response` (app.py lines 72-113).
`connected` is whether `self.client` is non-`None` on entry;
`connectOk n` is the outcome of the n-th `_connect()` call during this
invocation; `predict n` the outcome of the n-th `client.predict` call.
Returns `(outcome, number of connect calls, number of predict calls)`. -/
def GradioAPIClient.generate_response (connected : Bool) (connectOk : Nat → Bool)
    (predict : Nat → POut) : Except GenErr String × Nat × Nat :=
  -- `self._ensure_connection()` (lines 66-70, 81)
  if connected then
    GradioAPIClient.gen_after_ensure connectOk predict 0
  else if connectOk 0 then
    GradioAPIClient.gen_after_ensure connectOk predict 1
  else
    (.error .connectionUnavailable, 1, 0)

/-! ## Service configuration and request validation -/

/-- Configured default generation parameters (`DEFAULT_MAX_LENGTH`,
`DEFAULT_TEMPERATURE`, `DEFAULT_TOP_P`, app.py lines 130-132). -/
structure ServiceConfig where
  default_max_length : ℚ
  default_temperature : ℚ
  default_top_p : ℚ
deriving DecidableEq

/-- The configuration with the source's fallback defaults 512 / 0.7 / 0.9. -/
def cfg0 : ServiceConfig := ⟨512, 7/10, 9/10⟩

/-- `if not (1 <= max_length <= 2048): max_length = DEFAULT_MAX_LENGTH`
(app.py lines 251-252). -/
def validate_max_length (cfg : ServiceConfig) (v : ℚ) : ℚ :=
  if 1 ≤ v ∧ v ≤ 2048 then v else cfg.default_max_length

/-- `if not (0.0 <= temperature <= 2.0): temperature = DEFAULT_TEMPERATURE`
(app.py lines 253-254). -/
def validate_temperature (cfg : ServiceConfig) (v : ℚ) : ℚ :=
  if 0 ≤ v ∧ v ≤ 2 then v else cfg.default_temperature

/-- `if not (0.0 <= top_p <= 1.0): top_p = DEFAULT_TOP_P`
(app.py lines 255-256). -/
def validate_top_p (cfg : ServiceConfig) (v : ℚ) : ℚ :=
  if 0 ≤ v ∧ v ≤ 1 then v else cfg.default_top_p

/-- One backend call as issued by a route: the arguments handed to
`gradio_client.generate_response`. -/
structure Invocation where
  user_input : String
  max_length : ℚ
  temperature : ℚ
  top_p : ℚ
  endpoint : String
deriving DecidableEq

/-! ## Error response bodies (the `jsonify({...})` literals in app.py) -/

/-- 401 body from `require_api_key` (app.py lines 151-154). -/
def unauthorizedObj : JsonObj :=
  [("error", .str "Invalid or missing API key"), ("status", .str "unauthorized")]

/-- 503 body when `gradio_client` is `None` (app.py lines 224-227 etc.). -/
def clientNotInitializedObj : JsonObj :=
  [("error", .str "Gradio client not initialized"), ("status", .str "service_unavailable")]

/-- 400 body when the request has no JSON data (app.py lines 231-234). -/
def noJsonObj : JsonObj :=
  [("error", .str "No JSON data provided"), ("status", .str "bad_request")]

/-- 400 body when `user_input`/`question` is missing (app.py lines 239-242). -/
def missingInputObj : JsonObj :=
  [("error", .str "user_input or question is required"), ("status", .str "bad_request")]

/-- 400 body when the `/ask` query lacks a question (app.py lines 294-297). -/
def questionRequiredObj : JsonObj :=
  [("error", .str "question parameter is required"), ("status", .str "bad_request")]

/-- 400 body when `/batch` gets no (or an empty) questions list
(app.py lines 424-427). -/
def questionsRequiredObj : JsonObj :=
  [("error", .str "questions array is required"), ("status", .str "bad_request")]

/-- 400 body when `/batch` gets more than 10 questions (app.py lines 430-433). -/
def batchTooLargeObj : JsonObj :=
  [("error", .str "Maximum 10 questions allowed per batch"), ("status", .str "bad_request")]

/-- 503 body produced by `handle_errors` for a `ConnectionError`
(app.py lines 166-170). -/
def connectionErrorObj (msg : String) : JsonObj :=
  [("error", .str "Unable to connect to the AI service"),
   ("status", .str "connection_error"), ("message", .str msg)]

/-- 500 body produced by `handle_errors` for any other exception
(app.py lines 174-178). -/
def internalErrorObj (msg : String) : JsonObj :=
  [("error", .str "Internal server error"), ("status", .str "error"),
   ("message", .str msg)]

/-! ## Auth decorator (`require_api_key`, app.py lines 145-156) -/

/-- `require_api_key`: when an `API_KEY` is configured (a non-empty string —
Python truthiness of `if API_KEY:`), the provided key is
`request.headers.get('X-API-Key') or request.args.get('api_key')`; the check
passes iff that is truthy and equal to the configured key. Returns whether the
wrapped handler runs. -/
def require_api_key (apiKey : Option String) (headerKey queryKey : Option String) : Bool :=
  match apiKey with
  | none => true
  | some k =>
    if k = "" then true
    else
      match pyOrStr headerKey queryKey with
      | none => false
      | some p => if p = "" then false else p == k

/-- A key-protected route: the handler result is `((body, httpCode),
backendCalls)`. On auth failure the 401 body is returned and the handler —
hence any backend call it would make — never runs. -/
def protected_route (apiKey headerKey queryKey : Option String)
    (handler : (JsonObj × Nat) × Nat) : (JsonObj × Nat) × Nat :=
  if require_api_key apiKey headerKey queryKey then handler
  else ((unauthorizedObj, 401), 0)

/-! ## Error wrapper (`handle_errors`, app.py lines 159-179) -/

/-- An exception escaping a route handler: a `ConnectionError`, or any other
exception together with its message and its formatted traceback. -/
inductive PyExn where
  | connectionError (msg : String)
  | other (msg : String) (traceback : String)
deriving DecidableEq

/-- `handle_errors`: wraps a handler outcome. A `ConnectionError` becomes a
503 and any other exception a 500; the response `message` field carries
`str(e)` only, while `traceback.format_exc()` goes to the log (second
component). -/
def handle_errors (result : Except PyExn (JsonObj × Nat)) :
    (JsonObj × Nat) × List String :=
  match result with
  | .ok r => (r, [])
  | .error (.connectionError m) =>
    ((connectionErrorObj m, 503), ["Connection error: " ++ m])
  | .error (.other m tb) =>
    ((internalErrorObj m, 500), ["Unexpected error: " ++ m, tb])

/-! ## Health check (`health_check`, app.py lines 182-215) -/

/-- `GET /health`. `clientInit` is whether `gradio_client` is non-`None`,
`clientPresent` whether its `.client` handle is non-`None`; `connectTest` is
the outcome of the probe `Client(gradio_client.api_url)`. `lastConnected` is
the iso-formatted `last_connected` (or `null`), `apiUrl` and `ts` the
remaining payload strings. (The outer `except` at lines 203-207 guards only
the branch selection above it and cannot fire in this model.) -/
def health_check (clientInit clientPresent : Bool) (connectTest : Except String Unit)
    (apiUrl : String) (lastConnected : Option String) (ts : String) : JsonObj × Nat :=
  let scm : String × Nat × String :=
    if clientInit ∧ clientPresent then
      match connectTest with
      | .ok _ => ("healthy", 200, "API connection successful")
      | .error e => ("unhealthy", 503, "API connection failed: " ++ e)
    else
      ("unhealthy", 503, "Gradio client not initialized")
  ([("status", .str scm.1), ("message", .str scm.2.2), ("api_url", .str apiUrl),
    ("last_connected", match lastConnected with | some l => .str l | none => .null),
    ("timestamp", .str ts)],
   scm.2.1)

/-! ## Generation routes -/

/-- The JSON body fields the generation routes read (`request.get_json()`). -/
structure GenerateBody where
  user_input : Option String
  question : Option String
  max_length : Option ℚ
  temperature : Option ℚ
  top_p : Option ℚ
  endpoint : Option String
deriving DecidableEq

/-- What a single-call generation route does with a request: reject it with a
JSON error body and status code, or invoke the backend with the given
arguments. -/
inductive RouteResult where
  | reject (body : JsonObj) (code : Nat)
  | invoke (inv : Invocation)
deriving DecidableEq

/-- `POST /generate` (app.py lines 218-265), up to the backend call: resolves
the input text, fills absent parameters with the configured defaults and
range-validates them, then invokes the backend. `clientInit` is whether
`gradio_client` is non-`None`; `data` is the parsed JSON body (absent when
`request.get_json()` is falsy). -/
def generate_response (cfg : ServiceConfig) (clientInit : Bool)
    (data : Option GenerateBody) : RouteResult :=
  if ¬clientInit then .reject clientNotInitializedObj 503
  else
    match data with
    | none => .reject noJsonObj 400
    | some d =>
      match pyOrStr d.user_input d.question with
      | none => .reject missingInputObj 400
      | some ui =>
        if ui = "" then .reject missingInputObj 400
        else
          .invoke
            { user_input := ui
              max_length := validate_max_length cfg (d.max_length.getD cfg.default_max_length)
              temperature := validate_temperature cfg (d.temperature.getD cfg.default_temperature)
              top_p := validate_top_p cfg (d.top_p.getD cfg.default_top_p)
              endpoint := d.endpoint.getD "/generate_response" }

/-- `GET /ask` (app.py lines 281-309), up to the backend call: resolves the
question from `question`/`q`, fills absent numeric parameters with the
configured defaults, and invokes the backend — with NO range validation
(lines 300-302 pass the floats straight through). The endpoint is the
client method's default `"/generate_response"`. -/
def ask_question (cfg : ServiceConfig) (clientInit : Bool)
    (question q : Option String) (maxLen temp topP : Option ℚ) : RouteResult :=
  if ¬clientInit then .reject clientNotInitializedObj 503
  else
    match pyOrStr question q with
    | none => .reject questionRequiredObj 400
    | some s =>
      if s = "" then .reject questionRequiredObj 400
      else
        .invoke
          { user_input := s
            max_length := maxLen.getD cfg.default_max_length
            temperature := temp.getD cfg.default_temperature
            top_p := topP.getD cfg.default_top_p
            endpoint := "/generate_response" }

/-- Result of `POST /compare`: a rejection, or two sequential backend
invocations (with a fixed 0.5s gap, not modelled). -/
inductive CompareResult where
  | reject (body : JsonObj) (code : Nat)
  | invoke2 (first second : Invocation)
deriving DecidableEq

/-- `POST /compare` (app.py lines 319-365), up to the backend calls: fills
absent parameters with the configured defaults (lines 344-346, NO range
validation) and issues two invocations differing only in the endpoint name. -/
def compare_endpoints (cfg : ServiceConfig) (clientInit : Bool)
    (data : Option GenerateBody) : CompareResult :=
  if ¬clientInit then .reject clientNotInitializedObj 503
  else
    match data with
    | none => .reject noJsonObj 400
    | some d =>
      match pyOrStr d.user_input d.question with
      | none => .reject missingInputObj 400
      | some ui =>
        if ui = "" then .reject missingInputObj 400
        else
          let ml := d.max_length.getD cfg.default_max_length
          let t := d.temperature.getD cfg.default_temperature
          let tp := d.top_p.getD cfg.default_top_p
          .invoke2
            ⟨ui, ml, t, tp, "/generate_response"⟩
            ⟨ui, ml, t, tp, "/generate_response_1"⟩

/-! ## Batch orchestrator (`batch_generate`, app.py lines 404-482) -/

/-- One entry of the `/batch` results list. On success the dict has keys
`index, question, response, status` (no `error` key); on failure `response`
is `None` and `error` carries `str(e)` (app.py lines 450-455, 463-469). -/
structure BatchItemResult where
  index : Nat
  question : String
  response : Option String
  error : Option String
  status : String
deriving DecidableEq

/-- An observable step of the batch loop: a backend invocation, or a
`time.sleep(delay)` suspension. -/
inductive BEvent where
  | call (inv : Invocation)
  | sleep (d : ℚ)
deriving DecidableEq

/-- Whether a batch event is a sleep. -/
def BEvent.isSleep : BEvent → Bool
  | .sleep _ => true
  | .call _ => false

/-- The arguments `/batch` hands to `gradio_client.generate_response` for one
question (app.py lines 443-448): shared parameters filled from the body or
the configured defaults, endpoint defaulted by the client method — with NO
range validation (lines 435-437). -/
def batch_item_invocation (cfg : ServiceConfig) (maxLen temp topP : Option ℚ)
    (q : String) : Invocation :=
  { user_input := q
    max_length := maxLen.getD cfg.default_max_length
    temperature := temp.getD cfg.default_temperature
    top_p := topP.getD cfg.default_top_p
    endpoint := "/generate_response" }

/-- The result dict appended for item `i` (app.py lines 450-455 on success,
463-469 on failure), as a function of the backend outcome. -/
def itemResult (backend : Nat → String → Except String String) (i : Nat)
    (q : String) : BatchItemResult :=
  match backend i q with
  | .ok r => ⟨i, q, some r, none, "success"⟩
  | .error e => ⟨i, q, none, some e, "error"⟩

/-- The `for i, question in enumerate(questions):` loop of `/batch`
(app.py lines 441-469). `backend i q` is the outcome of the backend call for
item `i`; `n` is `len(questions)`; `i` is the index of the first remaining
question. Returns the results list and the ordered event trace. Note the
`time.sleep(delay)` sits inside the `try`, after the success append and
guarded by `i < len(questions) - 1` (lines 457-459): a failing item jumps to
`except` and performs no sleep. -/
def batch_loop (backend : Nat → String → Except String String) (cfg : ServiceConfig)
    (maxLen temp topP : Option ℚ) (delay : ℚ) (n : Nat) :
    Nat → List String → List BatchItemResult × List BEvent
  | _, [] => ([], [])
  | i, q :: rest =>
    let tl := batch_loop backend cfg maxLen temp topP delay n (i + 1) rest
    match backend i q with
    | .ok r =>
      (⟨i, q, some r, none, "success"⟩ :: tl.1,
       .call (batch_item_invocation cfg maxLen temp topP q) ::
         ((if i < n - 1 then [.sleep delay] else []) ++ tl.2))
    | .error e =>
      (⟨i, q, none, some e, "error"⟩ :: tl.1,
       .call (batch_item_invocation cfg maxLen temp topP q) :: tl.2)

/-- The JSON body fields `/batch` reads. -/
structure BatchBody where
  questions : Option (List String)
  max_length : Option ℚ
  temperature : Option ℚ
  top_p : Option ℚ
  delay : Option ℚ
deriving DecidableEq

/-- The 200 payload of `/batch` (app.py lines 471-482; the echoed parameters
and timestamp are omitted). -/
structure BatchResponse where
  status : String
  total_questions : Nat
  results : List BatchItemResult
deriving DecidableEq

/-- `POST /batch` (app.py lines 404-482): size-checks the questions list
(`data.get('questions', [])`; empty → 400, more than 10 → 400) before any
backend call, then runs the loop. Returns the outcome (error body and code,
or the response payload) together with the event trace of backend calls and
sleeps. (`isinstance` rejection of a non-list value is outside this model;
`questions` here is either absent or a list.) -/
def batch_generate (backend : Nat → String → Except String String)
    (cfg : ServiceConfig) (clientInit : Bool) (data : Option BatchBody) :
    Except (JsonObj × Nat) BatchResponse × List BEvent :=
  if ¬clientInit then (.error (clientNotInitializedObj, 503), [])
  else
    match data with
    | none => (.error (noJsonObj, 400), [])
    | some d =>
      let questions := d.questions.getD []
      if questions.isEmpty then (.error (questionsRequiredObj, 400), [])
      else if questions.length > 10 then (.error (batchTooLargeObj, 400), [])
      else
        let delay := d.delay.getD 1
        let out := batch_loop backend cfg d.max_length d.temperature d.top_p delay
          questions.length 0 questions
        (.ok ⟨"completed", questions.length, out.1⟩, out.2)

/-- Modelled from the amended pacing statement: the events one batch item
contributes — its backend call, followed by a sleep exactly when the call
succeeded and the item is not the last. Compared against `batch_loop` below. -/
def batchItemEventsSpec (backend : Nat → String → Except String String)
    (cfg : ServiceConfig) (maxLen temp topP : Option ℚ) (delay : ℚ) (n i : Nat)
    (q : String) : List BEvent :=
  .call (batch_item_invocation cfg maxLen temp topP q) ::
    (if (backend i q).isOk ∧ i < n - 1 then [.sleep delay] else [])

/-- Modelled from the amended pacing statement: the whole trace is the
concatenation of the per-item event blocks, in input order. -/
def batchEventsSpec (backend : Nat → String → Except String String)
    (cfg : ServiceConfig) (maxLen temp topP : Option ℚ) (delay : ℚ) (n : Nat) :
    Nat → List String → List BEvent
  | _, [] => []
  | i, q :: rest =>
    batchItemEventsSpec backend cfg maxLen temp topP delay n i q ++
      batchEventsSpec backend cfg maxLen temp topP delay n (i + 1) rest

/-- Placeholder item used only as the default of `List.getD` in theorem
statements about result lists. -/
def dummyItem : BatchItemResult := ⟨0, "", none, none, ""⟩

/-! ## Enumeration of the gateway's error responses (for the response-shape
claims). Each constructor corresponds to one error `jsonify(...)` site in
app.py; the two health constructors reuse the `health_check` model. -/

/-- All error responses the gateway can return to a caller. -/
inductive GatewayErrorResponse where
  | unauthorized
  | clientNotInitialized
  | noJson
  | missingInput
  | questionRequired
  | questionsRequired
  | batchTooLarge
  | connectionError (msg : String)
  | internal (msg : String)
  | healthNotInit (apiUrl : String) (lastConnected : Option String) (ts : String)
  | healthConnFailed (e apiUrl : String) (lastConnected : Option String) (ts : String)

/-- The JSON body and HTTP status code of each gateway error response. -/
def GatewayErrorResponse.response : GatewayErrorResponse → JsonObj × Nat
  | .unauthorized => (unauthorizedObj, 401)
  | .clientNotInitialized => (clientNotInitializedObj, 503)
  | .noJson => (noJsonObj, 400)
  | .missingInput => (missingInputObj, 400)
  | .questionRequired => (questionRequiredObj, 400)
  | .questionsRequired => (questionsRequiredObj, 400)
  | .batchTooLarge => (batchTooLargeObj, 400)
  | .connectionError m => (connectionErrorObj m, 503)
  | .internal m => (internalErrorObj m, 500)
  | .healthNotInit u lc ts => health_check false false (.ok ()) u lc ts
  | .healthConnFailed e u lc ts => health_check true true (.error e) u lc ts

/-- Whether the error response comes from the `/health` endpoint. -/
def GatewayErrorResponse.fromHealth : GatewayErrorResponse → Bool
  | .healthNotInit _ _ _ => true
  | .healthConnFailed _ _ _ _ => true
  | _ => false

/-! ## Helper lemmas about the batch loop -/

theorem batch_loop_length (backend : Nat → String → Except String String)
    (cfg : ServiceConfig) (maxLen temp topP : Option ℚ) (delay : ℚ) (n : Nat) :
    ∀ (qs : List String) (i : Nat),
      ((batch_loop backend cfg maxLen temp topP delay n i qs).1).length = qs.length := by
  intro qs
  induction qs with
  | nil => intro i; rfl
  | cons q rest ih =>
    intro i
    simp only [batch_loop]
    cases hbe : backend i q <;> simp [ih]

theorem batch_loop_getD (backend : Nat → String → Except String String)
    (cfg : ServiceConfig) (maxLen temp topP : Option ℚ) (delay : ℚ) (n : Nat) :
    ∀ (qs : List String) (i j : Nat), j < qs.length →
      ((batch_loop backend cfg maxLen temp topP delay n i qs).1).getD j dummyItem
        = itemResult backend (i + j) (qs.getD j "") := by
  intro qs
  induction qs with
  | nil => intro i j h; simp at h
  | cons q rest ih =>
    intro i j hj
    cases j with
    | zero =>
      simp only [batch_loop, itemResult]
      cases hbe : backend i q <;> simp [hbe]
    | succ j2 =>
      have hrec := ih (i + 1) j2 (by simpa using hj)
      have harith : i + (j2 + 1) = i + 1 + j2 := by omega
      simp only [batch_loop]
      cases hbe : backend i q
      all_goals
        simp only [List.getD_cons_succ]
        rw [harith]
        exact hrec

theorem batch_loop_events (backend : Nat → String → Except String String)
    (cfg : ServiceConfig) (maxLen temp topP : Option ℚ) (delay : ℚ) (n : Nat) :
    ∀ (qs : List String) (i : Nat),
      (batch_loop backend cfg maxLen temp topP delay n i qs).2
        = batchEventsSpec backend cfg maxLen temp topP delay n i qs := by
  intro qs
  induction qs with
  | nil => intro i; rfl
  | cons q rest ih =>
    intro i
    simp only [batch_loop, batchEventsSpec, batchItemEventsSpec]
    cases hbe : backend i q <;> simp [Except.isOk, Except.toBool, ih]

/-! ## Claim theorems -/

/-- C1: `generate_response` first ensures a connection, failing with
`ConnectionUnavailable` (and issuing no remote call) when the handle is
absent and the connect fails; on a first remote-call failure it makes exactly
one further connect attempt and, if that succeeds, exactly one repeated
remote call whose outcome (success or failure) is returned; if the reconnect
fails, the original remote failure is propagated. The second and third
components count connect and predict calls. -/
theorem invoke_retry_policy (connected : Bool) (connectOk : Nat → Bool)
    (predict : Nat → POut) :
    (connected = false → connectOk 0 = false →
      GradioAPIClient.generate_response connected connectOk predict
        = (.error .connectionUnavailable, 1, 0)) ∧
    (∀ s, (connected = true ∨ connectOk 0 = true) → predict 0 = .ok s →
      GradioAPIClient.generate_response connected connectOk predict
        = (.ok s, if connected then 0 else 1, 1)) ∧
    (∀ e, (connected = true ∨ connectOk 0 = true) → predict 0 = .exn e →
      connectOk (if connected then 0 else 1) = true →
      GradioAPIClient.generate_response connected connectOk predict
        = (match predict 1 with
           | .ok s => (.ok s, (if connected then 0 else 1) + 1, 2)
           | .exn e2 => (.error (.exn e2), (if connected then 0 else 1) + 1, 2))) ∧
    (∀ e, (connected = true ∨ connectOk 0 = true) → predict 0 = .exn e →
      connectOk (if connected then 0 else 1) = false →
      GradioAPIClient.generate_response connected connectOk predict
        = (.error (.exn e), (if connected then 0 else 1) + 1, 1)) := by
  refine ⟨?_, ?_, ?_, ?_⟩
  · intro hc h0
    simp [GradioAPIClient.generate_response, hc, h0]
  · intro s hens h0
    cases connected with
    | false =>
      rcases hens with h | h
      · exact absurd h (by simp)
      · simp [GradioAPIClient.generate_response, GradioAPIClient.gen_after_ensure, h, h0]
    | true =>
      simp [GradioAPIClient.generate_response, GradioAPIClient.gen_after_ensure, h0]
  · intro e hens h0 hc
    cases connected with
    | false =>
      rcases hens with h | h
      · exact absurd h (by simp)
      · simp only [Bool.false_eq_true, if_false] at hc
        cases h1 : predict 1 <;>
          simp [GradioAPIClient.generate_response, GradioAPIClient.gen_after_ensure,
            h, h0, hc, h1]
    | true =>
      simp only [if_true] at hc
      cases h1 : predict 1 <;>
        simp [GradioAPIClient.generate_response, GradioAPIClient.gen_after_ensure,
          h0, hc, h1]
  · intro e hens h0 hc
    cases connected with
    | false =>
      rcases hens with h | h
      · exact absurd h (by simp)
      · simp only [Bool.false_eq_true, if_false] at hc
        simp [GradioAPIClient.generate_response, GradioAPIClient.gen_after_ensure,
          h, h0, hc]
    | true =>
      simp only [if_true] at hc
      simp [GradioAPIClient.generate_response, GradioAPIClient.gen_after_ensure, h0, hc]

/-- Witness for C1: with an absent handle, a failing connect, and a backend
that would answer, the call fails with `ConnectionUnavailable` and performs
zero remote calls. -/
theorem invoke_retry_policy_witness :
    GradioAPIClient.generate_response false (fun _ => false) (fun _ => .ok "hi")
      = (.error .connectionUnavailable, 1, 0) :=
  (invoke_retry_policy false (fun _ => false) (fun _ => .ok "hi")).1 rfl rfl

/-- C9: if the first remote call fails, the reconnect succeeds and the
repeated remote call succeeds with answer `s`, the caller receives `.ok s` —
exactly what a run whose first call succeeds with the same answer returns
(retry transparency). -/
theorem retry_transparency (connected : Bool) (connectOk : Nat → Bool)
    (predict : Nat → POut) (e s : String)
    (hens : connected = true ∨ connectOk 0 = true)
    (h0 : predict 0 = .exn e)
    (hc : connectOk (if connected then 0 else 1) = true)
    (h1 : predict 1 = .ok s) :
    (GradioAPIClient.generate_response connected connectOk predict).1 = .ok s ∧
    (GradioAPIClient.generate_response connected connectOk predict).1
      = (GradioAPIClient.generate_response connected connectOk (fun _ => .ok s)).1 := by
  cases connected with
  | false =>
    rcases hens with h | h
    · exact absurd h (by simp)
    · simp only [Bool.false_eq_true, if_false] at hc
      constructor <;>
        simp [GradioAPIClient.generate_response, GradioAPIClient.gen_after_ensure,
          h, h0, hc, h1]
  | true =>
    simp only [if_true] at hc
    constructor <;>
      simp [GradioAPIClient.generate_response, GradioAPIClient.gen_after_ensure,
        h0, hc, h1]

/-- Witness for C9: a concrete transient failure followed by a successful
reconnect and retry yields the backend's answer. -/
theorem retry_transparency_witness :
    (GradioAPIClient.generate_response true (fun _ => true)
        (fun i => if i = 0 then .exn "transient" else .ok "answer")).1
      = Except.ok "answer" :=
  (retry_transparency true (fun _ => true)
    (fun i => if i = 0 then .exn "transient" else .ok "answer")
    "transient" "answer" (Or.inl rfl) rfl rfl rfl).1

/-- C2: an accepted batch (1 to 10 questions) yields a result list of the
same length and order as the input; item `j` carries index `j` and the `j`-th
question; a failing backend call for one item gives that item
`status = "error"` with a present error message (and does not abort the
others — each item's result is determined by its own backend outcome); the
response reports the total question count. -/
theorem batch_results_spec (backend : Nat → String → Except String String)
    (cfg : ServiceConfig) (qs : List String) (ml t tp dl : Option ℚ)
    (h1 : 1 ≤ qs.length) (h10 : qs.length ≤ 10) :
    (batch_generate backend cfg true (some ⟨some qs, ml, t, tp, dl⟩)).1
      = .ok ⟨"completed", qs.length,
          (batch_loop backend cfg ml t tp (dl.getD 1) qs.length 0 qs).1⟩ ∧
    ((batch_loop backend cfg ml t tp (dl.getD 1) qs.length 0 qs).1).length
      = qs.length ∧
    ∀ j, j < qs.length →
      (((batch_loop backend cfg ml t tp (dl.getD 1) qs.length 0 qs).1).getD j
          dummyItem).index = j ∧
      (((batch_loop backend cfg ml t tp (dl.getD 1) qs.length 0 qs).1).getD j
          dummyItem).question = qs.getD j "" ∧
      (∀ e, backend j (qs.getD j "") = .error e →
        (((batch_loop backend cfg ml t tp (dl.getD 1) qs.length 0 qs).1).getD j
            dummyItem).status = "error" ∧
        (((batch_loop backend cfg ml t tp (dl.getD 1) qs.length 0 qs).1).getD j
            dummyItem).error = some e ∧
        (((batch_loop backend cfg ml t tp (dl.getD 1) qs.length 0 qs).1).getD j
            dummyItem).response = none) ∧
      (∀ s, backend j (qs.getD j "") = .ok s →
        (((batch_loop backend cfg ml t tp (dl.getD 1) qs.length 0 qs).1).getD j
            dummyItem).status = "success" ∧
        (((batch_loop backend cfg ml t tp (dl.getD 1) qs.length 0 qs).1).getD j
            dummyItem).response = some s ∧
        (((batch_loop backend cfg ml t tp (dl.getD 1) qs.length 0 qs).1).getD j
            dummyItem).error = none) := by
  have hne : qs.isEmpty = false := by
    cases qs with
    | nil => simp at h1
    | cons q rest => rfl
  have hle : ¬(qs.length > 10) := by omega
  refine ⟨?_, batch_loop_length backend cfg ml t tp (dl.getD 1) qs.length qs 0, ?_⟩
  · simp [batch_generate, hne, hle]
  · intro j hj
    have hg := batch_loop_getD backend cfg ml t tp (dl.getD 1) qs.length qs 0 j hj
    rw [Nat.zero_add] at hg
    rw [hg]
    refine ⟨?_, ?_, ?_, ?_⟩
    · cases hbe : backend j (qs.getD j "") <;> simp only [itemResult, hbe]
    · cases hbe : backend j (qs.getD j "") <;> simp only [itemResult, hbe]
    · intro e he
      simp only [itemResult, he]
      refine ⟨?_, ?_, ?_⟩ <;> trivial
    · intro s hs
      simp only [itemResult, hs]
      refine ⟨?_, ?_, ?_⟩ <;> trivial

/-- Witness for C2: in a two-question batch whose second backend call fails,
the second result has `status = "error"`. -/
theorem batch_results_spec_witness :
    ((((batch_loop (fun i _ => if i = 0 then Except.ok "r" else Except.error "boom")
          cfg0 none none none 1 2 0 ["a", "b"]).1).getD 1 dummyItem).status)
      = "error" :=
  (((batch_results_spec (fun i _ => if i = 0 then Except.ok "r" else Except.error "boom")
      cfg0 ["a", "b"] none none none none (by decide) (by decide)).2.2 1
      (by decide)).2.2.1 "boom" rfl).1

/-- C3: in `POST /generate`, a `max_length` outside `[1, 2048]` is replaced
by the configured default (never clamped, never rejected), and likewise for
`temperature` outside `[0, 2]` and `top_p` outside `[0, 1]`; in-range values
pass through unchanged, and the request proceeds to the backend invocation
for every numeric parameter value. -/
theorem generate_param_validation (cfg : ServiceConfig) (ui : String) (hui : ui ≠ "")
    (ml t tp : ℚ) (ep : Option String) :
    generate_response cfg true (some ⟨some ui, none, some ml, some t, some tp, ep⟩)
      = .invoke ⟨ui, validate_max_length cfg ml, validate_temperature cfg t,
          validate_top_p cfg tp, ep.getD "/generate_response"⟩ ∧
    (¬(1 ≤ ml ∧ ml ≤ 2048) → validate_max_length cfg ml = cfg.default_max_length) ∧
    ((1 ≤ ml ∧ ml ≤ 2048) → validate_max_length cfg ml = ml) ∧
    (¬(0 ≤ t ∧ t ≤ 2) → validate_temperature cfg t = cfg.default_temperature) ∧
    ((0 ≤ t ∧ t ≤ 2) → validate_temperature cfg t = t) ∧
    (¬(0 ≤ tp ∧ tp ≤ 1) → validate_top_p cfg tp = cfg.default_top_p) ∧
    ((0 ≤ tp ∧ tp ≤ 1) → validate_top_p cfg tp = tp) := by
  constructor
  · simp [generate_response, pyOrStr, hui]
  refine ⟨fun h => ?_, fun h => ?_, fun h => ?_, fun h => ?_, fun h => ?_, fun h => ?_⟩
  · simp [validate_max_length, h]
  · simp [validate_max_length, h]
  · simp [validate_temperature, h]
  · simp [validate_temperature, h]
  · simp [validate_top_p, h]
  · simp [validate_top_p, h]

/-- Witness for C3: `max_length = 3000` is replaced by the default, while an
in-range `temperature = 1` passes through. -/
theorem generate_param_validation_witness :
    validate_max_length cfg0 3000 = cfg0.default_max_length ∧
    validate_temperature cfg0 1 = 1 :=
  ⟨(generate_param_validation cfg0 "hi" (by decide) 3000 1 (1/2) none).2.1
      (by norm_num),
   (generate_param_validation cfg0 "hi" (by decide) 3000 1 (1/2) none).2.2.2.2.1
      (by norm_num)⟩

/-- C4 counterexample: `GET /ask` with `max_length = 3000` (outside
`[1, 2048]`) invokes the backend with `3000`, not with the configured default
`512` — the claimed every-route substitution does not happen. -/
theorem ask_passthrough_counterexample :
    ask_question cfg0 true (some "hi") none (some 3000) none none
      = .invoke ⟨"hi", 3000, cfg0.default_temperature, cfg0.default_top_p,
          "/generate_response"⟩ ∧
    ¬((1 : ℚ) ≤ 3000 ∧ (3000 : ℚ) ≤ 2048) ∧
    cfg0.default_max_length = 512 ∧ (3000 : ℚ) ≠ 512 := by
  refine ⟨rfl, by norm_num, rfl, by norm_num⟩

/-- C4 amended: only `POST /generate` substitutes defaults for out-of-range
parameters; `GET /ask`, `POST /compare` and `POST /batch` hand the provided
numeric values to the backend unchanged (defaults fill only absent values),
and none of these routes rejects a request because of a parameter value. -/
theorem route_param_policy_amended (cfg : ServiceConfig) (q ui : String)
    (hq : q ≠ "") (hui : ui ≠ "") (ml t tp : ℚ) :
    ask_question cfg true (some q) none (some ml) (some t) (some tp)
      = .invoke ⟨q, ml, t, tp, "/generate_response"⟩ ∧
    compare_endpoints cfg true (some ⟨some ui, none, some ml, some t, some tp, none⟩)
      = .invoke2 ⟨ui, ml, t, tp, "/generate_response"⟩
          ⟨ui, ml, t, tp, "/generate_response_1"⟩ ∧
    batch_item_invocation cfg (some ml) (some t) (some tp) q
      = ⟨q, ml, t, tp, "/generate_response"⟩ ∧
    generate_response cfg true (some ⟨some ui, none, some ml, some t, some tp, none⟩)
      = .invoke ⟨ui, validate_max_length cfg ml, validate_temperature cfg t,
          validate_top_p cfg tp, "/generate_response"⟩ := by
  refine ⟨?_, ?_, rfl, ?_⟩
  · simp [ask_question, pyOrStr, hq]
  · simp [compare_endpoints, pyOrStr, hui]
  · simp [generate_response, pyOrStr, hui]

/-- Witness for the amended C4: `/ask` passes `max_length = 3000` through. -/
theorem route_param_policy_amended_witness :
    ask_question cfg0 true (some "a") none (some 3000) (some 1) (some (1/2))
      = .invoke ⟨"a", 3000, 1, 1/2, "/generate_response"⟩ :=
  (route_param_policy_amended cfg0 "a" "hi" (by decide) (by decide) 3000 1 (1/2)).1

/-- C5: `POST /batch` with an empty (or absent) questions list, or with more
than 10 questions, returns the 400 error body with an empty event trace — no
backend call is attempted; a batch of exactly 10 questions is accepted and
processed. -/
theorem batch_size_check (backend : Nat → String → Except String String)
    (cfg : ServiceConfig) (ml t tp dl : Option ℚ) (qs : List String) :
    batch_generate backend cfg true (some ⟨some [], ml, t, tp, dl⟩)
      = (.error (questionsRequiredObj, 400), []) ∧
    batch_generate backend cfg true (some ⟨none, ml, t, tp, dl⟩)
      = (.error (questionsRequiredObj, 400), []) ∧
    (qs.length > 10 →
      batch_generate backend cfg true (some ⟨some qs, ml, t, tp, dl⟩)
        = (.error (batchTooLargeObj, 400), [])) ∧
    (qs.length = 10 →
      (batch_generate backend cfg true (some ⟨some qs, ml, t, tp, dl⟩)).1
        = .ok ⟨"completed", qs.length,
            (batch_loop backend cfg ml t tp (dl.getD 1) qs.length 0 qs).1⟩) := by
  refine ⟨by simp [batch_generate], by simp [batch_generate], ?_, ?_⟩
  · intro hgt
    have hne : qs.isEmpty = false := by
      cases qs with
      | nil => simp at hgt
      | cons q rest => rfl
    simp [batch_generate, hne, hgt]
  · intro h10
    have hne : qs.isEmpty = false := by
      cases qs with
      | nil => simp at h10
      | cons q rest => rfl
    have hle : ¬(qs.length > 10) := by omega
    simp [batch_generate, hne, hle]

/-- Witness for C5: an 11-question batch is rejected with 400 and an empty
event trace. -/
theorem batch_size_check_witness :
    batch_generate (fun _ _ => Except.error "x") cfg0 true
        (some ⟨some (List.replicate 11 "q"), none, none, none, none⟩)
      = (.error (batchTooLargeObj, 400), []) :=
  (batch_size_check (fun _ _ => Except.error "x") cfg0 none none none none
      (List.replicate 11 "q")).2.2.1 (by decide)

/-- C6 counterexample: in a two-question batch whose first backend call
fails, the event trace holds the two backend calls and NO sleep at all —
although item 0 is not the last item. The claimed delay "regardless of
whether that item succeeded or failed" does not occur after a failed item. -/
theorem batch_delay_counterexample :
    (batch_generate (fun _ _ => Except.error "boom") cfg0 true
        (some ⟨some ["a", "b"], none, none, none, none⟩)).2
      = [.call (batch_item_invocation cfg0 none none none "a"),
         .call (batch_item_invocation cfg0 none none none "b")] ∧
    (((batch_generate (fun _ _ => Except.error "boom") cfg0 true
        (some ⟨some ["a", "b"], none, none, none, none⟩)).2).countP
      BEvent.isSleep) = 0 := ⟨rfl, rfl⟩

/-- C6 amended: a sleep of the configured delay occurs immediately after an
item's backend call exactly when that call succeeded and the item is not the
last; after a failed item, and after the final item, no delay occurs. The
batch trace is the concatenation of these per-item blocks. -/
theorem batch_delay_amended (backend : Nat → String → Except String String)
    (cfg : ServiceConfig) (ml t tp : Option ℚ) (delay : ℚ) (n : Nat) :
    (∀ (qs : List String) (i : Nat),
      (batch_loop backend cfg ml t tp delay n i qs).2
        = batchEventsSpec backend cfg ml t tp delay n i qs) ∧
    (∀ (i : Nat) (q : String), n - 1 ≤ i →
      batchItemEventsSpec backend cfg ml t tp delay n i q
        = [.call (batch_item_invocation cfg ml t tp q)]) ∧
    (∀ (qs : List String) (dl : Option ℚ), qs.isEmpty = false → qs.length ≤ 10 →
      (batch_generate backend cfg true (some ⟨some qs, ml, t, tp, dl⟩)).2
        = batchEventsSpec backend cfg ml t tp (dl.getD 1) qs.length 0 qs) := by
  refine ⟨batch_loop_events backend cfg ml t tp delay n, ?_, ?_⟩
  · intro i q hi
    have hni : ¬ i < n - 1 := by omega
    simp [batchItemEventsSpec, hni]
  · intro qs dl hne h10
    have hle : ¬(qs.length > 10) := by omega
    simp [batch_generate, hne, hle, batch_loop_events]

/-- Witness for the amended C6: the final item of a two-item batch
contributes its call and no sleep. -/
theorem batch_delay_amended_witness :
    batchItemEventsSpec (fun _ _ => Except.error "boom") cfg0 none none none 1 2 1 "b"
      = [.call (batch_item_invocation cfg0 none none none "b")] :=
  (batch_delay_amended (fun _ _ => Except.error "boom") cfg0 none none none 1 2).2.1
    1 "b" (by decide)

/-- C7: with an API key configured (a non-empty string), the check passes
exactly when the provided key — header first, then query — is exactly the
configured key; otherwise the route returns the 401 unauthorized JSON body
(which has `error` and `status` fields) and the handler, hence any backend
call, never runs. -/
theorem api_key_check_spec (k : String) (hk : k ≠ "") (hdr qry : Option String)
    (handler : (JsonObj × Nat) × Nat) :
    (require_api_key (some k) hdr qry = true ↔ pyOrStr hdr qry = some k) ∧
    (pyOrStr hdr qry ≠ some k →
      protected_route (some k) hdr qry handler = ((unauthorizedObj, 401), 0)) ∧
    (pyOrStr hdr qry = some k → protected_route (some k) hdr qry handler = handler) ∧
    hasField unauthorizedObj "error" = true ∧
    hasField unauthorizedObj "status" = true := by
  have hiff : require_api_key (some k) hdr qry = true ↔ pyOrStr hdr qry = some k := by
    simp only [require_api_key, if_neg hk]
    cases hp : pyOrStr hdr qry with
    | none => simp
    | some p =>
      by_cases hpe : p = ""
      · subst hpe
        simp [Ne.symm hk]
      · simp [hpe, beq_iff_eq]
  refine ⟨hiff, ?_, ?_, rfl, rfl⟩
  · intro hne
    have hreq : require_api_key (some k) hdr qry = false := by
      cases hr : require_api_key (some k) hdr qry
      · rfl
      · exact absurd (hiff.mp hr) hne
    simp [protected_route, hreq]
  · intro he
    simp [protected_route, hiff.mpr he]

/-- Witness for C7: a wrong header key against a configured key yields the
401 body and zero backend calls, replacing a handler that would have made
three. -/
theorem api_key_check_spec_witness :
    protected_route (some "secret") (some "wrong") none ((noJsonObj, 400), 3)
      = ((unauthorizedObj, 401), 0) :=
  (api_key_check_spec "secret" (by decide) (some "wrong") none
      ((noJsonObj, 400), 3)).2.1 (by decide)

/-- C8 counterexample: the `/health` 503 response when the client is not
initialized is an error response returned to the caller that contains no
`error` field, contradicting the claimed shape of every error response. -/
theorem health_error_field_counterexample :
    health_check false false (.ok ()) "https://example" none "2024-01-01T00:00:00"
      = ([("status", .str "unhealthy"),
          ("message", .str "Gradio client not initialized"),
          ("api_url", .str "https://example"),
          ("last_connected", .null),
          ("timestamp", .str "2024-01-01T00:00:00")], 503) ∧
    hasField (health_check false false (.ok ()) "https://example" none
        "2024-01-01T00:00:00").1 "error" = false := ⟨rfl, rfl⟩

/-- C8 amended: every gateway error response is JSON with a `status` field
and an HTTP code of at least 400; those not from `/health` also carry an
`error` field, while the `/health` error responses carry `status` and
`message`; the 500 handler's response body is built from the exception
message only — the formatted traceback never influences the response (it
goes only to the log). -/
theorem error_response_shape_amended :
    (∀ r : GatewayErrorResponse,
      400 ≤ r.response.2 ∧
      hasField r.response.1 "status" = true ∧
      (r.fromHealth = false → hasField r.response.1 "error" = true) ∧
      (r.fromHealth = true → hasField r.response.1 "message" = true)) ∧
    (∀ m tb tb2 : String,
      (handle_errors (.error (.other m tb))).1
        = (handle_errors (.error (.other m tb2))).1 ∧
      (handle_errors (.error (.other m tb))).1.1 = internalErrorObj m) := by
  constructor
  · intro r
    cases r with
    | unauthorized => exact ⟨by decide, rfl, fun _ => rfl, fun h => absurd h (by decide)⟩
    | clientNotInitialized =>
      exact ⟨by decide, rfl, fun _ => rfl, fun h => absurd h (by decide)⟩
    | noJson => exact ⟨by decide, rfl, fun _ => rfl, fun h => absurd h (by decide)⟩
    | missingInput => exact ⟨by decide, rfl, fun _ => rfl, fun h => absurd h (by decide)⟩
    | questionRequired =>
      exact ⟨by decide, rfl, fun _ => rfl, fun h => absurd h (by decide)⟩
    | questionsRequired =>
      exact ⟨by decide, rfl, fun _ => rfl, fun h => absurd h (by decide)⟩
    | batchTooLarge => exact ⟨by decide, rfl, fun _ => rfl, fun h => absurd h (by decide)⟩
    | connectionError m =>
      exact ⟨(by decide : (400 : Nat) ≤ 503), rfl, fun _ => rfl,
        fun h => Bool.noConfusion h⟩
    | internal m =>
      exact ⟨(by decide : (400 : Nat) ≤ 500), rfl, fun _ => rfl,
        fun h => Bool.noConfusion h⟩
    | healthNotInit u lc ts =>
      exact ⟨(by decide : (400 : Nat) ≤ 503), rfl, fun h => Bool.noConfusion h,
        fun _ => rfl⟩
    | healthConnFailed e u lc ts =>
      exact ⟨(by decide : (400 : Nat) ≤ 503), rfl, fun h => Bool.noConfusion h,
        fun _ => rfl⟩
  · intro m tb tb2
    exact ⟨rfl, rfl⟩

/-- Witness for the amended C8: the 401 body has an `error` field, and the
500 body does not change when the traceback does. -/
theorem error_response_shape_amended_witness :
    hasField (GatewayErrorResponse.unauthorized).response.1 "error" = true ∧
    (handle_errors (.error (.other "oops" "trace-a"))).1
      = (handle_errors (.error (.other "oops" "trace-b"))).1 :=
  ⟨(error_response_shape_amended.1 GatewayErrorResponse.unauthorized).2.2.1 rfl,
   (error_response_shape_amended.2 "oops" "trace-a" "trace-b").1⟩

/-- C10: when no API key is configured (the variable is absent or empty),
the auth check passes every request: the protected route equals the bare
handler, so two requests differing only in their provided key get the same
response. -/
theorem no_key_configured_transparent (apiKey : Option String)
    (hcfg : apiKey = none ∨ apiKey = some "") (hdr qry hdr2 qry2 : Option String)
    (handler : (JsonObj × Nat) × Nat) :
    protected_route apiKey hdr qry handler = handler ∧
    protected_route apiKey hdr qry handler
      = protected_route apiKey hdr2 qry2 handler := by
  rcases hcfg with h | h <;> subst h <;>
    simp [protected_route, require_api_key]

/-- Witness for C10: with no key configured, a request carrying an arbitrary
key reaches the handler unchanged. -/
theorem no_key_configured_transparent_witness :
    protected_route none (some "anything") none ((noJsonObj, 400), 3)
      = ((noJsonObj, 400), 3) :=
  (no_key_configured_transparent none (Or.inl rfl) (some "anything") none none none
      ((noJsonObj, 400), 3)).1

end GradioApp
